import Mathlib

/-!
# Federated ReplicaSet adapter

A shallow embedding of `federation/pkg/federatedtypes/replicaset.go`:
the status-reconciliation callback built by `NewReplicaSetAdapter`, and the
`Copy` / `Equivalent` / `EquivalentIgnoringSchedule` methods of
`ReplicaSetAdapter`.

Conventions of the embedding.

* `int32` counters are `Int`; the code only compares and copies them, so no
  arithmetic (and no overflow) is involved.
* `*int32` is `Option Int` (`nil` is `none`); `reflect.DeepEqual` compares
  pointers by pointee, which is equality of options.
* A `map[string]string` is represented by its entries, read through
  `List.lookup`; two maps are compared by their contents, not by the order of
  the entries.
* A Go pointer receiver that is mutated in place (`rs.Status = ...`) becomes
  explicit state passing: the callback returns the handle as it is after the
  call.
* The store client is a parameter: a state type `σ`, an error type `ε` and a
  transition for `UpdateStatus`.  Every call issued is also recorded in a log.
* Handles are typed: the type assertion `obj.(*extensionsv1.ReplicaSet)` has
  already succeeded.
-/

namespace Federatedtypes

/-! ## Data model -/

/-- Modelled from the spec: `SchedulingStatus` is declared in another file of the
package, not in `replicaset.go`.  The spec gives it four `int32` counters; the
callback reads exactly these four. -/
structure SchedulingStatus where
  Replicas : Int
  FullyLabeledReplicas : Int
  ReadyReplicas : Int
  AvailableReplicas : Int
deriving DecidableEq, Repr

/-- Modelled from the spec: `extensionsv1.ReplicaSetStatus` is declared in the
API package, not in `replicaset.go`.  The spec states that this kind's status has no fields
outside the four counters, which are also the only ones the source names. -/
structure ReplicaSetStatus where
  Replicas : Int
  FullyLabeledReplicas : Int
  ReadyReplicas : Int
  AvailableReplicas : Int
deriving DecidableEq, Repr

/-- Modelled from the spec: `metav1.ObjectMeta` is declared in the API
machinery, not in `replicaset.go`.  The fields are the ones the source names (`Name`, `GenerateName`,
`Namespace`, `Labels`) together with the ones the spec names: annotations, and
the cluster-local bookkeeping fields generation, resourceVersion, UID and
creation timestamp. -/
structure ObjectMeta where
  Name : String
  GenerateName : String
  Namespace : String
  UID : String
  ResourceVersion : String
  Generation : Int
  CreationTimestamp : Int
  Labels : List (String × String)
  Annotations : List (String × String)
deriving DecidableEq, Repr

/-- The spec of a ReplicaSet, `extensionsv1.ReplicaSetSpec`.  The source reads
and writes `Replicas` (a `*int32`) and otherwise treats the spec as one value
that is copied and compared as a whole; the type `τ` of the remainder (the pod
template and whatever else the spec carries) is a parameter. -/
structure ReplicaSetSpec (τ : Type) where
  Replicas : Option Int
  Template : τ
deriving DecidableEq, Repr

/-- A ReplicaSet handle, `*extensionsv1.ReplicaSet`: metadata, spec, status. -/
structure ReplicaSet (τ : Type) where
  ObjectMeta : Federatedtypes.ObjectMeta
  Spec : ReplicaSetSpec τ
  Status : ReplicaSetStatus
deriving DecidableEq, Repr

/-! ## The store client -/

/-- The part of the federation clientset the callback uses:
`client.Extensions().ReplicaSets(namespace).UpdateStatus(rs)`.  The store has a
state of type `σ`; a call returns the error (`none` is `nil`) and the next
store state.  The object returned by the store is discarded by the source
(`_, err := ...`), so it is not part of the result. -/
structure StatusClient (τ σ ε : Type) where
  UpdateStatus : String → ReplicaSet τ → σ → Option ε × σ

/-- What one invocation of the callback leaves behind: the handle after the
call, the returned error, the store state, and the log of status-update calls
issued (namespace and object carried). -/
structure StatusOutcome (τ σ ε : Type) where
  obj : ReplicaSet τ
  err : Option ε
  store : σ
  calls : List (String × ReplicaSet τ)

/-! ## The status-reconciliation callback -/

/-- The closure `updateStatusFunc` built by `NewReplicaSetAdapter`
(replicaset.go, lines 50-64). -/
def updateStatusFunc {τ σ ε : Type} (client : StatusClient τ σ ε)
    (rs : ReplicaSet τ) (status : SchedulingStatus) (st : σ) : StatusOutcome τ σ ε :=
  if status.Replicas != rs.Status.Replicas ||
      status.FullyLabeledReplicas != rs.Status.FullyLabeledReplicas ||
      status.ReadyReplicas != rs.Status.ReadyReplicas ||
      status.AvailableReplicas != rs.Status.AvailableReplicas then
    let rs1 : ReplicaSet τ :=
      { rs with
        Status :=
          { Replicas := status.Replicas
            FullyLabeledReplicas := status.Replicas
            ReadyReplicas := status.ReadyReplicas
            AvailableReplicas := status.AvailableReplicas } }
    let r := client.UpdateStatus rs1.ObjectMeta.Namespace rs1 st
    { obj := rs1, err := r.1, store := r.2, calls := [(rs1.ObjectMeta.Namespace, rs1)] }
  else
    { obj := rs, err := none, store := st, calls := [] }

/-- Two invocations in succession on the same handle with the same incoming
status: the second one sees the handle and the store as the first left them.
The result is the pair of outcomes. -/
def updateStatusTwice {τ σ ε : Type} (client : StatusClient τ σ ε)
    (rs : ReplicaSet τ) (status : SchedulingStatus) (st : σ) :
    StatusOutcome τ σ ε × StatusOutcome τ σ ε :=
  let first := updateStatusFunc client rs status st
  (first, updateStatusFunc client first.obj status first.store)

/-! ## Copy and equivalence -/

/-- Modelled from the spec: `fedutil.DeepCopyRelevantObjectMeta` is defined in
the federation controller utilities, not in `replicaset.go`.  The spec: a deep copy restricted to the metadata fields
relevant to federation (name, namespace, labels, annotations), not generation,
resourceVersion or UID, which are cluster-local.  The fields left out take
their zero value. -/
def DeepCopyRelevantObjectMeta (obj : ObjectMeta) : ObjectMeta :=
  { Name := obj.Name
    GenerateName := ""
    Namespace := obj.Namespace
    UID := ""
    ResourceVersion := ""
    Generation := 0
    CreationTimestamp := 0
    Labels := obj.Labels
    Annotations := obj.Annotations }

/-- Modelled from the spec: `fedutil.DeepCopyApiTypeOrPanic` is defined in the
federation controller utilities, not in `replicaset.go`.  The spec: a generic, structurally correct deep copy that does
not fail on a valid handle.  On immutable values a deep copy is the value. -/
def DeepCopyApiTypeOrPanic {α : Type} (x : α) : α := x

/-- Modelled from the spec: comparison of two string maps by content, the
entries' order being irrelevant (part of `fedutil.ObjectMetaAndSpecEquivalent`,
which is defined in the federation controller utilities). -/
def mapEquivalent (a b : List (String × String)) : Bool :=
  (a.all fun kv => b.lookup kv.1 == a.lookup kv.1) &&
  (b.all fun kv => a.lookup kv.1 == b.lookup kv.1)

/-- Modelled from the spec: the metadata half of
`fedutil.ObjectMetaAndSpecEquivalent`, a field-wise comparison that ignores
cluster-local bookkeeping (resourceVersion, UID, generation, timestamps) and
compares the metadata relevant to federation. -/
def ObjectMetaEquivalent (a b : ObjectMeta) : Bool :=
  a.Name == b.Name && a.Namespace == b.Namespace &&
  mapEquivalent a.Labels b.Labels && mapEquivalent a.Annotations b.Annotations

/-- Modelled from the spec: `fedutil.ObjectMetaAndSpecEquivalent` is defined in
the federation controller utilities, not in `replicaset.go`.  The spec: true iff metadata and spec are semantically
equal for reconciliation purposes; the status plays no part. -/
def ObjectMetaAndSpecEquivalent {τ : Type} [DecidableEq τ] (a b : ReplicaSet τ) : Bool :=
  ObjectMetaEquivalent a.ObjectMeta b.ObjectMeta && decide (a.Spec = b.Spec)

/-- `ReplicaSetAdapter.Copy` (replicaset.go, lines 82-88): relevant metadata
and the spec; the status of the fresh object is the zero value. -/
def Copy {τ : Type} (rs : ReplicaSet τ) : ReplicaSet τ :=
  { ObjectMeta := DeepCopyRelevantObjectMeta rs.ObjectMeta
    Spec := DeepCopyApiTypeOrPanic rs.Spec
    Status := { Replicas := 0, FullyLabeledReplicas := 0, ReadyReplicas := 0,
                AvailableReplicas := 0 } }

/-- `ReplicaSetAdapter.Equivalent` (replicaset.go, lines 90-92). -/
def Equivalent {τ : Type} [DecidableEq τ] (obj1 obj2 : ReplicaSet τ) : Bool :=
  ObjectMetaAndSpecEquivalent obj1 obj2

/-- `ReplicaSetAdapter.EquivalentIgnoringSchedule` (replicaset.go, lines
155-160): copy the second handle, overwrite the copy's replica count with the
first handle's, compare. -/
def EquivalentIgnoringSchedule {τ : Type} [DecidableEq τ] (obj1 obj2 : ReplicaSet τ) : Bool :=
  let replicaset1 := obj1
  let replicaset2 := Copy obj2
  let replicaset2 : ReplicaSet τ :=
    { replicaset2 with Spec := { replicaset2.Spec with Replicas := replicaset1.Spec.Replicas } }
  ObjectMetaAndSpecEquivalent replicaset1 replicaset2

/-! ## Concrete objects -/

/-- A container, as far as `NewTestObject` fills it in. -/
structure Container where
  Name : String
  Image : String
deriving DecidableEq, Repr

/-- A pod spec, as far as `NewTestObject` fills it in. -/
structure PodSpec where
  TerminationGracePeriodSeconds : Option Int
  Containers : List Container
deriving DecidableEq, Repr

/-- A pod template, `apiv1.PodTemplateSpec`: metadata and pod spec. -/
structure PodTemplateSpec where
  ObjectMeta : Federatedtypes.ObjectMeta
  Spec : PodSpec
deriving DecidableEq, Repr

/-- The zero value of `metav1.ObjectMeta`. -/
def emptyObjectMeta : ObjectMeta :=
  { Name := "", GenerateName := "", Namespace := "", UID := "", ResourceVersion := "",
    Generation := 0, CreationTimestamp := 0, Labels := [], Annotations := [] }

/-- `ReplicaSetAdapter.NewTestObject` (replicaset.go, lines 162-188). -/
def NewTestObject (ns : String) : ReplicaSet PodTemplateSpec :=
  let replicas : Int := 3
  let zero : Int := 0
  { ObjectMeta := { emptyObjectMeta with GenerateName := "test-replicaset-", Namespace := ns }
    Spec :=
      { Replicas := some replicas
        Template :=
          { ObjectMeta := { emptyObjectMeta with Labels := [("foo", "bar")] }
            Spec :=
              { TerminationGracePeriodSeconds := some zero
                Containers := [{ Name := "nginx", Image := "nginx" }] } } }
    Status := { Replicas := 0, FullyLabeledReplicas := 0, ReadyReplicas := 0,
                AvailableReplicas := 0 } }

/-- A store that accepts every status update; its state counts the updates
it has received. -/
def acceptingClient (τ : Type) : StatusClient τ Nat String :=
  { UpdateStatus := fun _ _ n => (none, n + 1) }

/-- A store that refuses every status update with the same error; its state
counts the updates it has received. -/
def rejectingClient (τ : Type) : StatusClient τ Nat String :=
  { UpdateStatus := fun _ _ n => (some "conflict", n + 1) }

/-- The test object with a given stored status. -/
def testObjectWithStatus (a b c d : Int) : ReplicaSet PodTemplateSpec :=
  { NewTestObject "ns" with
    Status := { Replicas := a, FullyLabeledReplicas := b, ReadyReplicas := c,
                AvailableReplicas := d } }

/-- The test object with a given replica count and a given stored status. -/
def testObjectWithReplicas (r : Option Int) (a b c d : Int) : ReplicaSet PodTemplateSpec :=
  { testObjectWithStatus a b c d with
    Spec := { (testObjectWithStatus a b c d).Spec with Replicas := r } }

/-- The test object as a member cluster would hold it: same relevant metadata
and spec, with cluster-local bookkeeping and a status filled in. -/
def clusterTestObject : ReplicaSet PodTemplateSpec :=
  { testObjectWithStatus 3 3 2 2 with
    ObjectMeta :=
      { (NewTestObject "ns").ObjectMeta with
        UID := "0f1e", ResourceVersion := "42", Generation := 7 } }

/-! ## Auxiliary facts -/

/-- The guard of the callback, as a proposition. -/
theorem guard_iff (s : SchedulingStatus) (t : ReplicaSetStatus) :
    (s.Replicas != t.Replicas || s.FullyLabeledReplicas != t.FullyLabeledReplicas ||
      s.ReadyReplicas != t.ReadyReplicas || s.AvailableReplicas != t.AvailableReplicas) = true ↔
    (s.Replicas ≠ t.Replicas ∨ s.FullyLabeledReplicas ≠ t.FullyLabeledReplicas ∨
      s.ReadyReplicas ≠ t.ReadyReplicas ∨ s.AvailableReplicas ≠ t.AvailableReplicas) := by
  simp only [Bool.or_eq_true, bne_iff_ne, or_assoc]

/-- The callback when the guard holds. -/
theorem updateStatusFunc_of_differs {τ σ ε : Type} (client : StatusClient τ σ ε)
    (h : ReplicaSet τ) (s : SchedulingStatus) (st : σ)
    (hd : s.Replicas ≠ h.Status.Replicas ∨
      s.FullyLabeledReplicas ≠ h.Status.FullyLabeledReplicas ∨
      s.ReadyReplicas ≠ h.Status.ReadyReplicas ∨
      s.AvailableReplicas ≠ h.Status.AvailableReplicas) :
    updateStatusFunc client h s st =
      { obj := { h with Status := ⟨s.Replicas, s.Replicas, s.ReadyReplicas, s.AvailableReplicas⟩ }
        err := (client.UpdateStatus h.ObjectMeta.Namespace
          { h with Status := ⟨s.Replicas, s.Replicas, s.ReadyReplicas, s.AvailableReplicas⟩ } st).1
        store := (client.UpdateStatus h.ObjectMeta.Namespace
          { h with Status := ⟨s.Replicas, s.Replicas, s.ReadyReplicas, s.AvailableReplicas⟩ } st).2
        calls := [(h.ObjectMeta.Namespace,
          { h with Status := ⟨s.Replicas, s.Replicas, s.ReadyReplicas, s.AvailableReplicas⟩ })] } := by
  unfold updateStatusFunc
  rw [if_pos ((guard_iff s h.Status).2 hd)]

/-- The callback when the guard fails. -/
theorem updateStatusFunc_of_same {τ σ ε : Type} (client : StatusClient τ σ ε)
    (h : ReplicaSet τ) (s : SchedulingStatus) (st : σ)
    (hs : s.Replicas = h.Status.Replicas ∧
      s.FullyLabeledReplicas = h.Status.FullyLabeledReplicas ∧
      s.ReadyReplicas = h.Status.ReadyReplicas ∧
      s.AvailableReplicas = h.Status.AvailableReplicas) :
    updateStatusFunc client h s st = { obj := h, err := none, store := st, calls := [] } := by
  unfold updateStatusFunc
  rw [if_neg]
  rw [guard_iff]
  rcases hs with ⟨h1, h2, h3, h4⟩
  simp [h1, h2, h3, h4]

/-- Either some counter differs or all four agree. -/
theorem differs_or_same (s : SchedulingStatus) (t : ReplicaSetStatus) :
    (s.Replicas ≠ t.Replicas ∨ s.FullyLabeledReplicas ≠ t.FullyLabeledReplicas ∨
      s.ReadyReplicas ≠ t.ReadyReplicas ∨ s.AvailableReplicas ≠ t.AvailableReplicas) ∨
    (s.Replicas = t.Replicas ∧ s.FullyLabeledReplicas = t.FullyLabeledReplicas ∧
      s.ReadyReplicas = t.ReadyReplicas ∧ s.AvailableReplicas = t.AvailableReplicas) := by
  by_cases h1 : s.Replicas = t.Replicas
  · by_cases h2 : s.FullyLabeledReplicas = t.FullyLabeledReplicas
    · by_cases h3 : s.ReadyReplicas = t.ReadyReplicas
      · by_cases h4 : s.AvailableReplicas = t.AvailableReplicas
        · exact Or.inr ⟨h1, h2, h3, h4⟩
        · exact Or.inl (Or.inr (Or.inr (Or.inr h4)))
      · exact Or.inl (Or.inr (Or.inr (Or.inl h3)))
    · exact Or.inl (Or.inr (Or.inl h2))
  · exact Or.inl (Or.inl h1)

/-! ## The status-reconciliation callback: theorems -/

/-- C1: for every handle `h` and incoming status `s`, the callback issues
exactly one status-update call against the store (and the store moves by that
one call) if at least one of the four counters of `s` differs from the one
stored on `h`; if all four are equal it issues no call, leaves the store alone
and returns `nil`.  Nothing is said about zero: it is a value like any other. -/
theorem updateStatusFunc_call_count {τ σ ε : Type} (client : StatusClient τ σ ε)
    (h : ReplicaSet τ) (s : SchedulingStatus) (st : σ) :
    ((s.Replicas ≠ h.Status.Replicas ∨
        s.FullyLabeledReplicas ≠ h.Status.FullyLabeledReplicas ∨
        s.ReadyReplicas ≠ h.Status.ReadyReplicas ∨
        s.AvailableReplicas ≠ h.Status.AvailableReplicas) →
      (updateStatusFunc client h s st).calls.length = 1 ∧
      ∃ call, (updateStatusFunc client h s st).calls = [call] ∧
        (updateStatusFunc client h s st).store = (client.UpdateStatus call.1 call.2 st).2) ∧
    ((s.Replicas = h.Status.Replicas ∧
        s.FullyLabeledReplicas = h.Status.FullyLabeledReplicas ∧
        s.ReadyReplicas = h.Status.ReadyReplicas ∧
        s.AvailableReplicas = h.Status.AvailableReplicas) →
      (updateStatusFunc client h s st).calls = [] ∧
      (updateStatusFunc client h s st).err = none ∧
      (updateStatusFunc client h s st).store = st) := by
  constructor
  · intro hd
    rw [updateStatusFunc_of_differs client h s st hd]
    exact ⟨rfl, _, rfl, rfl⟩
  · intro hs
    rw [updateStatusFunc_of_same client h s st hs]
    exact ⟨rfl, rfl, rfl⟩

/-- C1 at concrete inputs: all-zero stored against all-zero incoming issues no
call; all-zero stored against an incoming status with one non-zero counter
issues one. -/
theorem updateStatusFunc_call_count_witness :
    (updateStatusFunc (acceptingClient PodTemplateSpec) (testObjectWithStatus 0 0 0 0)
        ⟨0, 0, 0, 0⟩ 0).calls = [] ∧
    (updateStatusFunc (rejectingClient PodTemplateSpec) (testObjectWithStatus 0 0 0 0)
        ⟨0, 0, 0, 0⟩ 0).err = none ∧
    (updateStatusFunc (acceptingClient PodTemplateSpec) (testObjectWithStatus 0 0 0 0)
        ⟨0, 0, 0, 1⟩ 0).calls.length = 1 ∧
    (updateStatusFunc (acceptingClient PodTemplateSpec) (testObjectWithStatus 2 2 1 1)
        ⟨0, 0, 0, 0⟩ 0).calls.length = 1 :=
  ⟨((updateStatusFunc_call_count (acceptingClient PodTemplateSpec)
      (testObjectWithStatus 0 0 0 0) ⟨0, 0, 0, 0⟩ 0).2 (by decide)).1,
   ((updateStatusFunc_call_count (rejectingClient PodTemplateSpec)
      (testObjectWithStatus 0 0 0 0) ⟨0, 0, 0, 0⟩ 0).2 (by decide)).2.1,
   ((updateStatusFunc_call_count (acceptingClient PodTemplateSpec)
      (testObjectWithStatus 0 0 0 0) ⟨0, 0, 0, 1⟩ 0).1 (by decide)).1,
   ((updateStatusFunc_call_count (acceptingClient PodTemplateSpec)
      (testObjectWithStatus 2 2 1 1) ⟨0, 0, 0, 0⟩ 0).1 (by decide)).1⟩

/-- C2, evaluated where it fails: stored `{0,0,0,0}`, incoming `{3,2,1,1}`, a
store that accepts every update.  The first invocation succeeds with one
status-update call, and the second invocation, on the same handle with the
same incoming status, issues a status-update call again: the store has
received two updates. -/
theorem updateStatusTwice_writes_twice :
    (updateStatusTwice (acceptingClient PodTemplateSpec) (testObjectWithStatus 0 0 0 0)
        ⟨3, 2, 1, 1⟩ 0).1.err = none ∧
    (updateStatusTwice (acceptingClient PodTemplateSpec) (testObjectWithStatus 0 0 0 0)
        ⟨3, 2, 1, 1⟩ 0).1.calls.length = 1 ∧
    (updateStatusTwice (acceptingClient PodTemplateSpec) (testObjectWithStatus 0 0 0 0)
        ⟨3, 2, 1, 1⟩ 0).2.calls.length = 1 ∧
    (updateStatusTwice (acceptingClient PodTemplateSpec) (testObjectWithStatus 0 0 0 0)
        ⟨3, 2, 1, 1⟩ 0).2.store = 2 := by
  refine ⟨rfl, rfl, rfl, rfl⟩

/-- C3, evaluated where it fails: stored `{3,3,1,1}`, incoming `{3,2,1,1}`.
The callback issues one status-update call, and the object it carries has the
status `{3,3,1,1}`: the four counters that were stored before the call. -/
theorem updateStatusFunc_writes_identical_status :
    (updateStatusFunc (acceptingClient PodTemplateSpec) (testObjectWithStatus 3 3 1 1)
        ⟨3, 2, 1, 1⟩ 0).calls = [("ns", testObjectWithStatus 3 3 1 1)] ∧
    (updateStatusFunc (acceptingClient PodTemplateSpec) (testObjectWithStatus 3 3 1 1)
        ⟨3, 2, 1, 1⟩ 0).store = 1 ∧
    (updateStatusFunc (acceptingClient PodTemplateSpec) (testObjectWithStatus 3 3 1 1)
        ⟨3, 2, 1, 1⟩ 0).obj.Status = (testObjectWithStatus 3 3 1 1).Status := by
  refine ⟨rfl, rfl, rfl⟩

/-- C4, evaluated where it fails: stored `{0,0,0,0}`, incoming `{3,2,1,1}`.
After the callback the handle (and the object carried by the status-update
call) has `fullyLabeledReplicas = 3`, not the incoming `2`: the stored status
is `{3,3,1,1}`. -/
theorem updateStatusFunc_fullyLabeled_not_incoming :
    (updateStatusFunc (acceptingClient PodTemplateSpec) (testObjectWithStatus 0 0 0 0)
        ⟨3, 2, 1, 1⟩ 0).obj.Status = ⟨3, 3, 1, 1⟩ ∧
    (updateStatusFunc (acceptingClient PodTemplateSpec) (testObjectWithStatus 0 0 0 0)
        ⟨3, 2, 1, 1⟩ 0).obj.Status.FullyLabeledReplicas ≠
      (⟨3, 2, 1, 1⟩ : SchedulingStatus).FullyLabeledReplicas ∧
    (updateStatusFunc (acceptingClient PodTemplateSpec) (testObjectWithStatus 0 0 0 0)
        ⟨3, 2, 1, 1⟩ 0).calls.map (fun c => c.2.Status) = [⟨3, 3, 1, 1⟩] := by
  refine ⟨rfl, by decide, rfl⟩

/-- C5: for every handle `h` and incoming status `s` that differs from the
stored status, the status the callback writes on the handle has
`replicas = s.replicas`, `readyReplicas = s.readyReplicas`,
`availableReplicas = s.availableReplicas` and `fullyLabeledReplicas =
s.replicas`; the callback issues exactly one status-update call, in the
handle's namespace and carrying the handle with that status: the store state
and the returned error are those of `UpdateStatus` applied once, to that
object, on the store as it was.  In particular stored `{2,2,1,1}` with incoming
`{3,3,2,2}` yields exactly one call, carrying `{3,3,2,2}`. -/
theorem updateStatusFunc_written_status {τ σ ε : Type} (client : StatusClient τ σ ε)
    (h : ReplicaSet τ) (s : SchedulingStatus) (st : σ) :
    ((s.Replicas ≠ h.Status.Replicas ∨
        s.FullyLabeledReplicas ≠ h.Status.FullyLabeledReplicas ∨
        s.ReadyReplicas ≠ h.Status.ReadyReplicas ∨
        s.AvailableReplicas ≠ h.Status.AvailableReplicas) →
      (updateStatusFunc client h s st).obj.Status.Replicas = s.Replicas ∧
      (updateStatusFunc client h s st).obj.Status.FullyLabeledReplicas = s.Replicas ∧
      (updateStatusFunc client h s st).obj.Status.ReadyReplicas = s.ReadyReplicas ∧
      (updateStatusFunc client h s st).obj.Status.AvailableReplicas = s.AvailableReplicas ∧
      (updateStatusFunc client h s st).obj =
        { h with Status := ⟨s.Replicas, s.Replicas, s.ReadyReplicas, s.AvailableReplicas⟩ } ∧
      (updateStatusFunc client h s st).calls =
        [(h.ObjectMeta.Namespace, (updateStatusFunc client h s st).obj)] ∧
      (updateStatusFunc client h s st).store =
        (client.UpdateStatus h.ObjectMeta.Namespace
          { h with Status := ⟨s.Replicas, s.Replicas, s.ReadyReplicas, s.AvailableReplicas⟩ }
          st).2 ∧
      (updateStatusFunc client h s st).err =
        (client.UpdateStatus h.ObjectMeta.Namespace
          { h with Status := ⟨s.Replicas, s.Replicas, s.ReadyReplicas, s.AvailableReplicas⟩ }
          st).1) ∧
    (h.Status = ⟨2, 2, 1, 1⟩ → s = ⟨3, 3, 2, 2⟩ →
      (updateStatusFunc client h s st).calls =
        [(h.ObjectMeta.Namespace, { h with Status := ⟨3, 3, 2, 2⟩ })] ∧
      (updateStatusFunc client h s st).store =
        (client.UpdateStatus h.ObjectMeta.Namespace { h with Status := ⟨3, 3, 2, 2⟩ } st).2 ∧
      (updateStatusFunc client h s st).err =
        (client.UpdateStatus h.ObjectMeta.Namespace { h with Status := ⟨3, 3, 2, 2⟩ } st).1) := by
  constructor
  · intro hd
    rw [updateStatusFunc_of_differs client h s st hd]
    exact ⟨rfl, rfl, rfl, rfl, rfl, rfl, rfl, rfl⟩
  · intro hh hs
    have hd : s.Replicas ≠ h.Status.Replicas ∨
        s.FullyLabeledReplicas ≠ h.Status.FullyLabeledReplicas ∨
        s.ReadyReplicas ≠ h.Status.ReadyReplicas ∨
        s.AvailableReplicas ≠ h.Status.AvailableReplicas := by
      left
      rw [hh, hs]
      decide
    rw [updateStatusFunc_of_differs client h s st hd, hs]
    exact ⟨rfl, rfl, rfl⟩

/-- C5 at the spec's example: stored `{2,2,1,1}`, incoming `{3,3,2,2}`.  The
one call carries `{3,3,2,2}`; a store that counts the updates it receives has
counted one, and a store that refuses hands back its error.  Stored
`{0,0,0,0}` with incoming `{3,2,1,1}` leaves `fullyLabeledReplicas = 3`. -/
theorem updateStatusFunc_written_status_witness :
    (updateStatusFunc (acceptingClient PodTemplateSpec) (testObjectWithStatus 2 2 1 1)
        ⟨3, 3, 2, 2⟩ 0).calls = [("ns", testObjectWithStatus 3 3 2 2)] ∧
    (updateStatusFunc (acceptingClient PodTemplateSpec) (testObjectWithStatus 2 2 1 1)
        ⟨3, 3, 2, 2⟩ 0).store = 1 ∧
    (updateStatusFunc (rejectingClient PodTemplateSpec) (testObjectWithStatus 2 2 1 1)
        ⟨3, 3, 2, 2⟩ 0).err = some "conflict" ∧
    (updateStatusFunc (acceptingClient PodTemplateSpec) (testObjectWithStatus 0 0 0 0)
        ⟨3, 2, 1, 1⟩ 0).obj.Status.FullyLabeledReplicas = 3 ∧
    (updateStatusFunc (acceptingClient PodTemplateSpec) (testObjectWithStatus 0 0 0 0)
        ⟨3, 2, 1, 1⟩ 0).store = 1 :=
  ⟨((updateStatusFunc_written_status (acceptingClient PodTemplateSpec)
      (testObjectWithStatus 2 2 1 1) ⟨3, 3, 2, 2⟩ 0).2 rfl rfl).1,
   ((updateStatusFunc_written_status (acceptingClient PodTemplateSpec)
      (testObjectWithStatus 2 2 1 1) ⟨3, 3, 2, 2⟩ 0).2 rfl rfl).2.1,
   ((updateStatusFunc_written_status (rejectingClient PodTemplateSpec)
      (testObjectWithStatus 2 2 1 1) ⟨3, 3, 2, 2⟩ 0).2 rfl rfl).2.2,
   ((updateStatusFunc_written_status (acceptingClient PodTemplateSpec)
      (testObjectWithStatus 0 0 0 0) ⟨3, 2, 1, 1⟩ 0).1 (by decide)).2.1,
   ((updateStatusFunc_written_status (acceptingClient PodTemplateSpec)
      (testObjectWithStatus 0 0 0 0) ⟨3, 2, 1, 1⟩ 0).1 (by decide)).2.2.2.2.2.2.1⟩

/-- C6: for every handle, incoming status and store, the callback returns the
error `e` if and only if it issued a status-update call and that call returned
`e`; the error is the store's, unchanged.  One invocation makes at most one
store call and never retries: either no call is issued, the store is left as
it was and the result is `nil`, or exactly one call is issued and both the
store state and the returned error are those of that single `UpdateStatus`
applied to the store as it was. -/
theorem updateStatusFunc_error {τ σ ε : Type} (client : StatusClient τ σ ε)
    (h : ReplicaSet τ) (s : SchedulingStatus) (st : σ) :
    (∀ e : ε, (updateStatusFunc client h s st).err = some e ↔
      ∃ call, (updateStatusFunc client h s st).calls = [call] ∧
        (client.UpdateStatus call.1 call.2 st).1 = some e) ∧
    (updateStatusFunc client h s st).calls.length ≤ 1 ∧
    (((updateStatusFunc client h s st).calls = [] ∧
        (updateStatusFunc client h s st).store = st ∧
        (updateStatusFunc client h s st).err = none) ∨
      ∃ call, (updateStatusFunc client h s st).calls = [call] ∧
        (updateStatusFunc client h s st).store = (client.UpdateStatus call.1 call.2 st).2 ∧
        (updateStatusFunc client h s st).err = (client.UpdateStatus call.1 call.2 st).1) := by
  rcases differs_or_same s h.Status with hd | hs
  · rw [updateStatusFunc_of_differs client h s st hd]
    refine ⟨fun e => ⟨fun he => ⟨_, rfl, he⟩, ?_⟩, le_refl _, Or.inr ⟨_, rfl, rfl, rfl⟩⟩
    rintro ⟨call, hc, he⟩
    have hcall := (List.cons.inj hc).1
    subst hcall
    exact he
  · rw [updateStatusFunc_of_same client h s st hs]
    refine ⟨fun e => ⟨fun he => ?_, ?_⟩, Nat.zero_le _, Or.inl ⟨rfl, rfl, rfl⟩⟩
    · exact absurd he (by simp)
    · rintro ⟨call, hc, _⟩
      exact absurd hc (by simp)

/-- C6 at concrete inputs: a refusing store's error comes back as it is, and
that store has been called once, not twice; with equal counters the store is
not called at all. -/
theorem updateStatusFunc_error_witness :
    (updateStatusFunc (rejectingClient PodTemplateSpec) (testObjectWithStatus 2 2 1 1)
        ⟨3, 3, 2, 2⟩ 0).err = some "conflict" ∧
    (updateStatusFunc (rejectingClient PodTemplateSpec) (testObjectWithStatus 2 2 1 1)
        ⟨2, 2, 1, 1⟩ 0).calls.length ≤ 1 ∧
    (updateStatusFunc (rejectingClient PodTemplateSpec) (testObjectWithStatus 2 2 1 1)
        ⟨3, 3, 2, 2⟩ 0).store = 1 ∧
    (updateStatusFunc (acceptingClient PodTemplateSpec) (testObjectWithStatus 2 2 1 1)
        ⟨3, 3, 2, 2⟩ 0).store = 1 ∧
    (updateStatusFunc (rejectingClient PodTemplateSpec) (testObjectWithStatus 2 2 1 1)
        ⟨2, 2, 1, 1⟩ 0).store = 0 :=
  ⟨((updateStatusFunc_error (rejectingClient PodTemplateSpec)
      (testObjectWithStatus 2 2 1 1) ⟨3, 3, 2, 2⟩ 0).1 "conflict").2
      ⟨("ns", testObjectWithStatus 3 3 2 2), rfl, rfl⟩,
   (updateStatusFunc_error (rejectingClient PodTemplateSpec)
      (testObjectWithStatus 2 2 1 1) ⟨2, 2, 1, 1⟩ 0).2.1,
   (updateStatusFunc_error (rejectingClient PodTemplateSpec)
      (testObjectWithStatus 2 2 1 1) ⟨3, 3, 2, 2⟩ 0).2.2.elim
      (fun hnone => absurd hnone.2.2 (by decide))
      (fun hone => hone.elim fun _ hc => hc.2.1.trans rfl),
   (updateStatusFunc_error (acceptingClient PodTemplateSpec)
      (testObjectWithStatus 2 2 1 1) ⟨3, 3, 2, 2⟩ 0).2.2.elim
      (fun hnone => absurd hnone.1 (by decide))
      (fun hone => hone.elim fun _ hc => hc.2.1.trans rfl),
   (updateStatusFunc_error (rejectingClient PodTemplateSpec)
      (testObjectWithStatus 2 2 1 1) ⟨2, 2, 1, 1⟩ 0).2.2.elim
      (fun hnone => hnone.2.1)
      (fun hone => hone.elim fun call hc =>
        List.noConfusion
          (show ([] : List (String × ReplicaSet PodTemplateSpec)) = [call] from hc.1))⟩

/-- C9: for every handle `h` and incoming status `s` with
`s.fullyLabeledReplicas = s.replicas`, after one invocation the status stored
on `h` equals `s` in all four counters, and a second invocation on the same
handle with the same `s` issues no status-update call, leaves the store as the
first invocation left it, and returns `nil`; this holds whether or not the
store accepted the first update. -/
theorem updateStatusTwice_fixed_point {τ σ ε : Type} (client : StatusClient τ σ ε)
    (h : ReplicaSet τ) (s : SchedulingStatus) (st : σ)
    (hmirror : s.FullyLabeledReplicas = s.Replicas) :
    ((updateStatusTwice client h s st).1.obj.Status.Replicas = s.Replicas ∧
      (updateStatusTwice client h s st).1.obj.Status.FullyLabeledReplicas =
        s.FullyLabeledReplicas ∧
      (updateStatusTwice client h s st).1.obj.Status.ReadyReplicas = s.ReadyReplicas ∧
      (updateStatusTwice client h s st).1.obj.Status.AvailableReplicas =
        s.AvailableReplicas) ∧
    (updateStatusTwice client h s st).2.calls = [] ∧
    (updateStatusTwice client h s st).2.err = none ∧
    (updateStatusTwice client h s st).2.store = (updateStatusTwice client h s st).1.store := by
  have key : (updateStatusFunc client h s st).obj.Status.Replicas = s.Replicas ∧
      (updateStatusFunc client h s st).obj.Status.FullyLabeledReplicas =
        s.FullyLabeledReplicas ∧
      (updateStatusFunc client h s st).obj.Status.ReadyReplicas = s.ReadyReplicas ∧
      (updateStatusFunc client h s st).obj.Status.AvailableReplicas =
        s.AvailableReplicas := by
    rcases differs_or_same s h.Status with hd | hs
    · rw [updateStatusFunc_of_differs client h s st hd]
      exact ⟨rfl, hmirror.symm, rfl, rfl⟩
    · rw [updateStatusFunc_of_same client h s st hs]
      exact ⟨hs.1.symm, hs.2.1.symm, hs.2.2.1.symm, hs.2.2.2.symm⟩
  have hsame := updateStatusFunc_of_same client (updateStatusFunc client h s st).obj s
    (updateStatusFunc client h s st).store
    ⟨key.1.symm, key.2.1.symm, key.2.2.1.symm, key.2.2.2.symm⟩
  refine ⟨key, ?_, ?_, ?_⟩
  · show (updateStatusFunc client (updateStatusFunc client h s st).obj s
      (updateStatusFunc client h s st).store).calls = []
    rw [hsame]
  · show (updateStatusFunc client (updateStatusFunc client h s st).obj s
      (updateStatusFunc client h s st).store).err = none
    rw [hsame]
  · show (updateStatusFunc client (updateStatusFunc client h s st).obj s
      (updateStatusFunc client h s st).store).store = (updateStatusFunc client h s st).store
    rw [hsame]

/-- C9 at a concrete input: stored `{2,2,1,1}`, incoming `{3,3,2,2}`, and a
store that refuses the update. -/
theorem updateStatusTwice_fixed_point_witness :
    (⟨3, 3, 2, 2⟩ : SchedulingStatus).FullyLabeledReplicas =
      (⟨3, 3, 2, 2⟩ : SchedulingStatus).Replicas ∧
    (updateStatusTwice (rejectingClient PodTemplateSpec) (testObjectWithStatus 2 2 1 1)
        ⟨3, 3, 2, 2⟩ 0).2.calls = [] ∧
    (updateStatusTwice (rejectingClient PodTemplateSpec) (testObjectWithStatus 2 2 1 1)
        ⟨3, 3, 2, 2⟩ 0).2.err = none :=
  ⟨rfl,
   (updateStatusTwice_fixed_point (rejectingClient PodTemplateSpec)
      (testObjectWithStatus 2 2 1 1) ⟨3, 3, 2, 2⟩ 0 rfl).2.1,
   (updateStatusTwice_fixed_point (rejectingClient PodTemplateSpec)
      (testObjectWithStatus 2 2 1 1) ⟨3, 3, 2, 2⟩ 0 rfl).2.2.1⟩

/-! ## Copy and equivalence: theorems -/

/-- A map has the same content as itself. -/
theorem mapEquivalent_refl (a : List (String × String)) : mapEquivalent a a = true := by
  simp [mapEquivalent]

/-- Metadata is equivalent to itself. -/
theorem ObjectMetaEquivalent_refl (a : ObjectMeta) : ObjectMetaEquivalent a a = true := by
  simp [ObjectMetaEquivalent, mapEquivalent_refl]

/-- The comparison of metadata does not see whether its second argument went
through the relevant-metadata copy. -/
theorem ObjectMetaEquivalent_copy (a b : ObjectMeta) :
    ObjectMetaEquivalent a (DeepCopyRelevantObjectMeta b) = ObjectMetaEquivalent a b := rfl

/-- What `EquivalentIgnoringSchedule` computes: equivalent metadata and equal
spec remainders; neither replica count is looked at. -/
theorem EquivalentIgnoringSchedule_eq {τ : Type} [DecidableEq τ] (h1 h2 : ReplicaSet τ) :
    EquivalentIgnoringSchedule h1 h2 =
      (ObjectMetaEquivalent h1.ObjectMeta h2.ObjectMeta &&
        decide (h1.Spec.Template = h2.Spec.Template)) := by
  unfold EquivalentIgnoringSchedule ObjectMetaAndSpecEquivalent Copy DeepCopyApiTypeOrPanic
  simp only [ObjectMetaEquivalent_copy]
  congr 1
  rcases h1 with ⟨m1, ⟨r1, t1⟩, s1⟩
  simp

/-- C7: for every pair of handles whose metadata agree and whose specs agree
in everything but the replica count (the statuses are free, and either replica
count may be `nil`), `EquivalentIgnoringSchedule` is true; and for any spec
remainder `t` there are such pairs on which `Equivalent` is false, one with
two different replica counts and one where a replica count is `nil`. -/
theorem EquivalentIgnoringSchedule_ignores_replicas {τ : Type} [DecidableEq τ] (t : τ) :
    (∀ h1 h2 : ReplicaSet τ, h1.ObjectMeta = h2.ObjectMeta →
      h1.Spec.Template = h2.Spec.Template → EquivalentIgnoringSchedule h1 h2 = true) ∧
    (∃ h1 h2 : ReplicaSet τ, h1.ObjectMeta = h2.ObjectMeta ∧
      h1.Spec.Template = h2.Spec.Template ∧ h1.Spec.Template = t ∧
      h1.Spec.Replicas = some 3 ∧ h2.Spec.Replicas = some 5 ∧
      Equivalent h1 h2 = false ∧ EquivalentIgnoringSchedule h1 h2 = true) ∧
    (∃ h1 h2 : ReplicaSet τ, h1.ObjectMeta = h2.ObjectMeta ∧
      h1.Spec.Template = h2.Spec.Template ∧ h1.Spec.Template = t ∧
      h1.Spec.Replicas = none ∧ h2.Spec.Replicas = some 3 ∧
      Equivalent h1 h2 = false ∧ EquivalentIgnoringSchedule h1 h2 = true) := by
  have all : ∀ h1 h2 : ReplicaSet τ, h1.ObjectMeta = h2.ObjectMeta →
      h1.Spec.Template = h2.Spec.Template → EquivalentIgnoringSchedule h1 h2 = true := by
    intro h1 h2 hm ht
    rw [EquivalentIgnoringSchedule_eq, hm, ht, ObjectMetaEquivalent_refl]
    simp
  refine ⟨all, ?_, ?_⟩
  · refine ⟨⟨emptyObjectMeta, ⟨some 3, t⟩, ⟨0, 0, 0, 0⟩⟩,
      ⟨emptyObjectMeta, ⟨some 5, t⟩, ⟨0, 0, 0, 0⟩⟩, rfl, rfl, rfl, rfl, rfl, ?_, all _ _ rfl rfl⟩
    simp [Equivalent, ObjectMetaAndSpecEquivalent]
  · refine ⟨⟨emptyObjectMeta, ⟨none, t⟩, ⟨0, 0, 0, 0⟩⟩,
      ⟨emptyObjectMeta, ⟨some 3, t⟩, ⟨0, 0, 0, 0⟩⟩, rfl, rfl, rfl, rfl, rfl, ?_, all _ _ rfl rfl⟩
    simp [Equivalent, ObjectMetaAndSpecEquivalent]

/-- C7 at concrete inputs: the test object against itself with the replica
count unset and another status. -/
theorem EquivalentIgnoringSchedule_ignores_replicas_witness :
    (NewTestObject "ns").ObjectMeta = (testObjectWithReplicas none 2 2 1 1).ObjectMeta ∧
    (NewTestObject "ns").Spec.Template = (testObjectWithReplicas none 2 2 1 1).Spec.Template ∧
    EquivalentIgnoringSchedule (NewTestObject "ns") (testObjectWithReplicas none 2 2 1 1)
      = true :=
  ⟨rfl, rfl,
   (EquivalentIgnoringSchedule_ignores_replicas (NewTestObject "ns").Spec.Template).1
      (NewTestObject "ns") (testObjectWithReplicas none 2 2 1 1) rfl rfl⟩

/-- C8: for every handle `h`, `Equivalent(h, Copy(h))` is true.  The copy has
the name, namespace, labels and annotations of `h` and its full spec; its
cluster-local metadata (generateName, UID, resourceVersion, generation,
creation timestamp) and its status are zero values. -/
theorem Equivalent_Copy {τ : Type} [DecidableEq τ] (h : ReplicaSet τ) :
    Equivalent h (Copy h) = true ∧
    (Copy h).ObjectMeta.Name = h.ObjectMeta.Name ∧
    (Copy h).ObjectMeta.Namespace = h.ObjectMeta.Namespace ∧
    (Copy h).ObjectMeta.Labels = h.ObjectMeta.Labels ∧
    (Copy h).ObjectMeta.Annotations = h.ObjectMeta.Annotations ∧
    (Copy h).Spec = h.Spec ∧
    (Copy h).Status = ⟨0, 0, 0, 0⟩ ∧
    (Copy h).ObjectMeta.UID = "" ∧
    (Copy h).ObjectMeta.ResourceVersion = "" ∧
    (Copy h).ObjectMeta.Generation = 0 := by
  refine ⟨?_, rfl, rfl, rfl, rfl, rfl, rfl, rfl, rfl, rfl⟩
  unfold Equivalent ObjectMetaAndSpecEquivalent Copy DeepCopyApiTypeOrPanic
  simp only [ObjectMetaEquivalent_copy, ObjectMetaEquivalent_refl]
  simp

/-- C10: for every pair of handles, if `Equivalent(h1, h2)` is true then
`EquivalentIgnoringSchedule(h1, h2)` is true. -/
theorem EquivalentIgnoringSchedule_of_Equivalent {τ : Type} [DecidableEq τ]
    (h1 h2 : ReplicaSet τ) (heq : Equivalent h1 h2 = true) :
    EquivalentIgnoringSchedule h1 h2 = true := by
  unfold Equivalent ObjectMetaAndSpecEquivalent at heq
  rw [Bool.and_eq_true, decide_eq_true_eq] at heq
  rw [EquivalentIgnoringSchedule_eq, heq.1, heq.2]
  simp

/-- C10 at a concrete input: the test object and its per-cluster counterpart
are equivalent, hence equivalent ignoring the schedule. -/
theorem EquivalentIgnoringSchedule_of_Equivalent_witness :
    Equivalent (NewTestObject "ns") clusterTestObject = true ∧
    EquivalentIgnoringSchedule (NewTestObject "ns") clusterTestObject = true :=
  ⟨by decide,
   EquivalentIgnoringSchedule_of_Equivalent (NewTestObject "ns") clusterTestObject (by decide)⟩

end Federatedtypes
